import Mathlib

/-!
# Pressmatic Printify client — verification of the spec's claims

Shallow embedding of the `pressmatic` TypeScript client (src/src/client.ts,
src/unnamed/part_003 `errors.ts`, src/unnamed/part_001 `types.ts`).

The client is a thin typed wrapper over axios: every operation builds a
request (method, interpolated path, optional JSON body) and funnels the
awaited axios promise through one private routine `handleRequest`, which
returns `response.data` on success and otherwise normalizes the thrown
value into a `PrintifyError`.

We model JSON wire values with an inductive `Json` (JSON.stringify omits
`undefined` object fields, which we reflect by omitting absent optional
fields), the awaited axios outcome as `Except ThrownError AxiosResponse`,
and JavaScript's falsy-coalescing `||` explicitly (`""` and `0` are falsy).
-/

namespace Pressmatic

/-- JSON wire values. Object fields keep insertion order, as JS objects and
JSON.stringify do. -/
inductive Json where
  | null : Json
  | bool (b : Bool) : Json
  | num (n : Int) : Json
  | str (s : String) : Json
  | arr (items : List Json) : Json
  | obj (fields : List (String × Json)) : Json

/-- Field lookup in a JSON object (none on non-objects / absent keys). -/
def Json.lookupField (j : Json) (key : String) : Option Json :=
  match j with
  | .obj fields => fields.lookup key
  | _ => none

/-- Remove one field from a JSON object (identity on non-objects). Used to
state "wire-identical except for field X". -/
def Json.eraseField (j : Json) (key : String) : Json :=
  match j with
  | .obj fields => .obj (fields.filter (fun p => p.1 != key))
  | _ => j

/-- The top-level field names of a JSON object, in wire order. -/
def Json.keys (j : Json) : List String :=
  match j with
  | .obj fields => fields.map Prod.fst
  | _ => []

/-- Serialize an optional string field: JSON.stringify drops `undefined`. -/
def optStrField (key : String) (v : Option String) : List (String × Json) :=
  match v with
  | some s => [(key, .str s)]
  | none => []

/-- Serialize an optional numeric field: JSON.stringify drops `undefined`. -/
def optNumField (key : String) (v : Option Int) : List (String × Json) :=
  match v with
  | some n => [(key, .num n)]
  | none => []

/-! ## Data model (src/unnamed/part_001 `types.ts`) -/

/-- `PressmaticConfig`: apiKey, endpoint, optional userAgent. -/
structure PressmaticConfig where
  apiKey : String
  endpoint : String
  userAgent : Option String
deriving DecidableEq, Repr

/-- `Address` from types.ts: required name/email/country/address1/city/zip,
optional phone/region/address2. -/
structure Address where
  first_name : String
  last_name : String
  email : String
  phone : Option String
  country : String
  region : Option String
  address1 : String
  address2 : Option String
  city : String
  zip : String
deriving DecidableEq, Repr

/-- Wire form of an `Address`, fields in declaration order, optional fields
omitted when absent. -/
def Address.toJson (a : Address) : Json :=
  .obj ([("first_name", .str a.first_name),
         ("last_name", .str a.last_name),
         ("email", .str a.email)] ++
        optStrField "phone" a.phone ++
        [("country", .str a.country)] ++
        optStrField "region" a.region ++
        [("address1", .str a.address1)] ++
        optStrField "address2" a.address2 ++
        [("city", .str a.city),
         ("zip", .str a.zip)])

/-- The `OrderStatus` string enum (src/unnamed/part_001 and the compiled
src/dist/types.js). -/
inductive OrderStatus where
  | PENDING
  | ON_HOLD
  | CANCELED
  | FAILED
  | COMPLETED
deriving DecidableEq, Repr

/-- The string each `OrderStatus` member carries, verbatim from the source:
`PENDING = "pending"`, `ON_HOLD = "onhold"`, `CANCELED = "canceled"`,
`FAILED = "failed"`, `COMPLETED = "completed"`. -/
def OrderStatus.value : OrderStatus → String
  | .PENDING => "pending"
  | .ON_HOLD => "onhold"
  | .CANCELED => "canceled"
  | .FAILED => "failed"
  | .COMPLETED => "completed"

/-- `OrderLineItem` from types.ts. -/
structure OrderLineItem where
  product_id : String
  variant_id : Int
  quantity : Int
  print_provider_id : Option Int
  blueprint_id : Option Int
  sku : Option String
deriving DecidableEq, Repr

/-- Wire form of an `OrderLineItem` (optional fields omitted). -/
def OrderLineItem.toJson (li : OrderLineItem) : Json :=
  .obj ([("product_id", .str li.product_id),
         ("variant_id", .num li.variant_id),
         ("quantity", .num li.quantity)] ++
        optNumField "print_provider_id" li.print_provider_id ++
        optNumField "blueprint_id" li.blueprint_id ++
        optStrField "sku" li.sku)

/-- The inline `metadata` record of `Order`. -/
structure OrderMetadata where
  order_type : String
  shop_order_id : Option String
  shop_order_label : Option String
deriving DecidableEq, Repr

def OrderMetadata.toJson (m : OrderMetadata) : Json :=
  .obj ([("order_type", .str m.order_type)] ++
        optStrField "shop_order_id" m.shop_order_id ++
        optStrField "shop_order_label" m.shop_order_label)

/-- `Order` from types.ts: the full payload `createOrder` posts verbatim. -/
structure Order where
  id : String
  address_to : Address
  line_items : List OrderLineItem
  metadata : OrderMetadata
  shipping_method : Int
  send_shipping_notification : Bool
  status : OrderStatus
  created_at : String
  updated_at : String
deriving DecidableEq, Repr

/-- Wire form of a full `Order` payload, fields in declaration order (what
JSON.stringify produces for an `Order`-shaped object). -/
def Order.toJson (o : Order) : Json :=
  .obj [("id", .str o.id),
        ("address_to", o.address_to.toJson),
        ("line_items", .arr (o.line_items.map OrderLineItem.toJson)),
        ("metadata", o.metadata.toJson),
        ("shipping_method", .num o.shipping_method),
        ("send_shipping_notification", .bool o.send_shipping_notification),
        ("status", .str o.status.value),
        ("created_at", .str o.created_at),
        ("updated_at", .str o.updated_at)]

/-! ## Error model (src/unnamed/part_003 `errors.ts`) -/

/-- `PrintifyError`: message, numeric status code, optional field-error map
(`Record<string, string[]>` modelled as an association list). -/
structure PrintifyError where
  message : String
  statusCode : Nat
  details : Option (List (String × List String))
deriving DecidableEq, Repr

/-- `ApiErrorResponse`: the raw vendor error body shape, every field
optional. -/
structure ApiErrorResponse where
  code : Option Int
  message : Option String
  errors : Option (List (String × List String))
deriving DecidableEq, Repr

/-! ## Transport outcomes (axios) -/

/-- The response attached to a failed axios request: its HTTP status and its
body, decoded as the raw vendor error shape when decodable. -/
structure FailureResponse where
  status : Nat
  data : Option ApiErrorResponse
deriving DecidableEq, Repr

/-- What `await promise` can throw: an axios error (`axios.isAxiosError`
true), which carries its own message and possibly a response — pure
network faults such as connection refused are axios errors with no
response — or any other thrown value. -/
inductive ThrownError where
  | axiosError (message : String) (response : Option FailureResponse)
  | other
deriving DecidableEq, Repr

/-- A successful axios response: HTTP status and the decoded JSON body. -/
structure AxiosResponse where
  status : Nat
  data : Json

/-- JavaScript `x || fallback` on an optional string: `undefined` and the
empty string are falsy. -/
def jsOrStr (x : Option String) (fallback : String) : String :=
  match x with
  | some s => if s = "" then fallback else s
  | none => fallback

/-- JavaScript `x || fallback` on an optional number: `undefined` and `0`
are falsy. -/
def jsOrNat (x : Option Nat) (fallback : Nat) : Nat :=
  match x with
  | some n => if n = 0 then fallback else n
  | none => fallback

/-- The catch-block of `handleRequest` (client.ts lines 402–412): if the
thrown value is an axios error, read `error.response?.data` as the raw
vendor shape and build
`new PrintifyError(apiError?.message || error.message,
error.response?.status || 500, apiError?.errors)`; otherwise build
`new PrintifyError("Unknown error occurred", 500)`. -/
def normalizeError (e : ThrownError) : PrintifyError :=
  match e with
  | .axiosError msg response =>
      let apiError : Option ApiErrorResponse := response.bind (·.data)
      { message := jsOrStr (apiError.bind (·.message)) msg
        statusCode := jsOrNat (response.map (·.status)) 500
        details := apiError.bind (·.errors) }
  | .other =>
      { message := "Unknown error occurred", statusCode := 500, details := none }

/-- `handleRequest` (client.ts lines 398–413): await the promise; on
success return `response.data`; on a thrown value raise the normalized
`PrintifyError`. -/
def handleRequest (promise : Except ThrownError AxiosResponse) :
    Except PrintifyError Json :=
  match promise with
  | .ok response => .ok response.data
  | .error e => .error (normalizeError e)

/-! ## Client construction (client.ts lines 19–29) -/

/-- The axios instance built by the `PressmaticClient` constructor: base
URL, `Authorization: Bearer <apiKey>`,
`User-Agent: config.userAgent || "PrintifyApiClient/1.0"`,
`Content-Type: application/json`, `timeout: 10000`. The constructor is a
plain total assembly: it performs no validation of the configuration. -/
structure TransportHandle where
  baseURL : String
  authorization : String
  userAgent : String
  contentType : String
  timeout : Nat
deriving DecidableEq, Repr

def mkPressmaticClient (config : PressmaticConfig) : TransportHandle :=
  { baseURL := config.endpoint
    authorization := "Bearer " ++ config.apiKey
    userAgent := jsOrStr config.userAgent "PrintifyApiClient/1.0"
    contentType := "application/json"
    timeout := 10000 }

/-! ## Requests the operations build -/

inductive HttpMethod where
  | GET
  | POST
  | PUT
  | DELETE
deriving DecidableEq, Repr

/-- One outbound HTTP request: method, interpolated path, optional JSON
body. -/
structure Request where
  method : HttpMethod
  path : String
  body : Option Json

/-- `publishProduct` (client.ts lines 92–109): POST
`/shops/{shopId}/products/{productId}/publish.json` with the literal
`publishData` object of seven flags, all `true`. -/
def publishProduct (shopId productId : String) : Request :=
  let publishData : Json :=
    .obj [("title", .bool true),
          ("description", .bool true),
          ("images", .bool true),
          ("variants", .bool true),
          ("tags", .bool true),
          ("keyFeatures", .bool true),
          ("shipping_template", .bool true)]
  { method := .POST
    path := "/shops/" ++ shopId ++ "/products/" ++ productId ++ "/publish.json"
    body := some publishData }

/-- `setPublishingSucceeded` (client.ts lines 119–138): POST
`/shops/{shopId}/products/{productId}/publishing_succeeded.json` with body
`{ external: { id: externalId, handle: handle } }`. -/
def setPublishingSucceeded (shopId productId handle externalId : String) :
    Request :=
  { method := .POST
    path := "/shops/" ++ shopId ++ "/products/" ++ productId ++
            "/publishing_succeeded.json"
    body := some (.obj [("external",
      .obj [("id", .str externalId), ("handle", .str handle)])]) }

/-- `createOrder` (client.ts lines 150–154): POST
`/shops/{shopId}/orders.json` with the caller's full `Order` payload
posted verbatim. -/
def createOrder (shopId : String) (orderData : Order) : Request :=
  { method := .POST
    path := "/shops/" ++ shopId ++ "/orders.json"
    body := some orderData.toJson }

/-- Line items accepted by `createOrderWithProductId`:
`{ product_id; variant_id; quantity }`. -/
structure ProductIdLineItem where
  product_id : String
  variant_id : Int
  quantity : Int
deriving DecidableEq, Repr

def ProductIdLineItem.toJson (li : ProductIdLineItem) : Json :=
  .obj [("product_id", .str li.product_id),
        ("variant_id", .num li.variant_id),
        ("quantity", .num li.quantity)]

/-- Line items accepted by `createOrderWithSKU`: `{ sku; quantity }`. -/
structure SkuLineItem where
  sku : String
  quantity : Int
deriving DecidableEq, Repr

def SkuLineItem.toJson (li : SkuLineItem) : Json :=
  .obj [("sku", .str li.sku), ("quantity", .num li.quantity)]

/-- Line items accepted by `createFlexibleOrder`:
`{ product_id?; variant_id?; sku?; quantity }`. -/
structure FlexibleLineItem where
  product_id : Option String
  variant_id : Option Int
  sku : Option String
  quantity : Int
deriving DecidableEq, Repr

def FlexibleLineItem.toJson (li : FlexibleLineItem) : Json :=
  .obj (optStrField "product_id" li.product_id ++
        optNumField "variant_id" li.variant_id ++
        optStrField "sku" li.sku ++
        [("quantity", .num li.quantity)])

/-- `createOrderWithProductId` (client.ts lines 169–198). The three
trailing `Option Bool` parameters model the TypeScript default parameters
`isPrintifyExpress = false`, `isEconomyShipping = false`,
`sendShippingNotification = false`: `none` is an omitted argument, bound
to `false`. The `orderData` object literal is reproduced field for field. -/
def createOrderWithProductId (shopId externalId label : String)
    (lineItems : List ProductIdLineItem) (shippingMethod : Int)
    (address : Address) (isPrintifyExpress isEconomyShipping
    sendShippingNotification : Option Bool) : Request :=
  let orderData : Json :=
    .obj [("external_id", .str externalId),
          ("label", .str label),
          ("line_items", .arr (lineItems.map ProductIdLineItem.toJson)),
          ("shipping_method", .num shippingMethod),
          ("is_printify_express", .bool (isPrintifyExpress.getD false)),
          ("is_economy_shipping", .bool (isEconomyShipping.getD false)),
          ("send_shipping_notification",
            .bool (sendShippingNotification.getD false)),
          ("address_to", address.toJson)]
  { method := .POST
    path := "/shops/" ++ shopId ++ "/orders.json"
    body := some orderData }

/-- `createOrderWithSKU` (client.ts lines 213–238). Same shape as
`createOrderWithProductId`, with SKU-shaped line items. -/
def createOrderWithSKU (shopId externalId label : String)
    (lineItems : List SkuLineItem) (shippingMethod : Int)
    (address : Address) (isPrintifyExpress isEconomyShipping
    sendShippingNotification : Option Bool) : Request :=
  let orderData : Json :=
    .obj [("external_id", .str externalId),
          ("label", .str label),
          ("line_items", .arr (lineItems.map SkuLineItem.toJson)),
          ("shipping_method", .num shippingMethod),
          ("is_printify_express", .bool (isPrintifyExpress.getD false)),
          ("is_economy_shipping", .bool (isEconomyShipping.getD false)),
          ("send_shipping_notification",
            .bool (sendShippingNotification.getD false)),
          ("address_to", address.toJson)]
  { method := .POST
    path := "/shops/" ++ shopId ++ "/orders.json"
    body := some orderData }

/-- `createFlexibleOrder` (client.ts lines 253–283). Same shape again, with
mixed-shape line items. -/
def createFlexibleOrder (shopId externalId label : String)
    (lineItems : List FlexibleLineItem) (shippingMethod : Int)
    (address : Address) (isPrintifyExpress isEconomyShipping
    sendShippingNotification : Option Bool) : Request :=
  let orderData : Json :=
    .obj [("external_id", .str externalId),
          ("label", .str label),
          ("line_items", .arr (lineItems.map FlexibleLineItem.toJson)),
          ("shipping_method", .num shippingMethod),
          ("is_printify_express", .bool (isPrintifyExpress.getD false)),
          ("is_economy_shipping", .bool (isEconomyShipping.getD false)),
          ("send_shipping_notification",
            .bool (sendShippingNotification.getD false)),
          ("address_to", address.toJson)]
  { method := .POST
    path := "/shops/" ++ shopId ++ "/orders.json"
    body := some orderData }

/-- An operation's end-to-end behavior: the request it built is given to
the transport, and the awaited outcome goes through `handleRequest`. Every
operation in client.ts delegates to `handleRequest` this way. -/
def runOperation (transport : Request → Except ThrownError AxiosResponse)
    (req : Request) : Except PrintifyError Json :=
  handleRequest (transport req)

/-- A request's body with one field erased: what goes on the wire apart
from that field. -/
def requestBodyMinus (r : Request) (key : String) : Option Json :=
  r.body.map (·.eraseField key)

/-- A field of a request's JSON body. -/
def requestBodyField (r : Request) (key : String) : Option Json :=
  r.body.bind (·.lookupField key)

/-- Concrete address used to evaluate the order-creation builders. -/
def sampleAddress : Address :=
  { first_name := "John", last_name := "Doe"
    email := "john.doe@example.com", phone := none
    country := "US", region := none
    address1 := "123 Main St", address2 := none
    city := "New York", zip := "10001" }

/-- Concrete full `Order` payload logically equivalent to the sample
by-product-id inputs (external id "ext-1", label "Label-1", one line item
prod-1/variant 1/quantity 2, shipping method 1, `sampleAddress`). -/
def sampleOrder : Order :=
  { id := "order-1"
    address_to := sampleAddress
    line_items := [⟨"prod-1", 1, 2, none, none, none⟩]
    metadata := ⟨"external", some "ext-1", some "Label-1"⟩
    shipping_method := 1
    send_shipping_notification := false
    status := .PENDING
    created_at := "2024-01-01T00:00:00Z"
    updated_at := "2024-01-01T00:00:00Z" }

/-! ## Theorems about the claims -/

/-- C3: when the awaited request completes without a transport-level fault,
`handleRequest` returns the response body unchanged, for every body (no
schema validation) and every HTTP status (no explicit status-range
check). -/
theorem C3_success_passthrough (status : Nat) (data : Json) :
    handleRequest (.ok ⟨status, data⟩) = .ok data := rfl

/-- C4: every operation run through the shared routine either resolves
with the response body or raises the normalized `PrintifyError` — every
thrown value, axios fault or otherwise, converges on a `PrintifyError`
and no failure is swallowed. -/
theorem C4_failures_converge
    (transport : Request → Except ThrownError AxiosResponse) (req : Request) :
    (∀ t : ThrownError, transport req = .error t →
      runOperation transport req = .error (normalizeError t)) ∧
    (∀ resp : AxiosResponse, transport req = .ok resp →
      runOperation transport req = .ok resp.data) := by
  constructor
  · intro t ht
    simp [runOperation, handleRequest, ht]
  · intro resp hresp
    simp [runOperation, handleRequest, hresp]

/-- Witness for C4 at a concrete transport that throws a non-axios value
on a concrete request. -/
theorem C4_failures_converge_witness :
    runOperation (fun _ => .error .other) (publishProduct "shop-1" "prod-1")
      = .error (normalizeError .other) :=
  (C4_failures_converge (fun _ => .error .other)
    (publishProduct "shop-1" "prod-1")).1 .other rfl

/-- C6: `createOrderWithProductId` with none of the three optional flags
supplied produces a body whose `is_printify_express`,
`is_economy_shipping` and `send_shipping_notification` fields are all
`false`. -/
theorem C6_optional_flags_default_false (shopId externalId label : String)
    (lineItems : List ProductIdLineItem) (shippingMethod : Int)
    (address : Address) :
    requestBodyField (createOrderWithProductId shopId externalId label
        lineItems shippingMethod address none none none)
        "is_printify_express" = some (.bool false) ∧
    requestBodyField (createOrderWithProductId shopId externalId label
        lineItems shippingMethod address none none none)
        "is_economy_shipping" = some (.bool false) ∧
    requestBodyField (createOrderWithProductId shopId externalId label
        lineItems shippingMethod address none none none)
        "send_shipping_notification" = some (.bool false) :=
  ⟨rfl, rfl, rfl⟩

/-- C7: `publishProduct` always sends the fixed body with all seven
publish flags true, independent of shop and product ids. -/
theorem C7_publish_flags_constant (shopId productId : String) :
    (publishProduct shopId productId).body =
      some (.obj [("title", .bool true),
                  ("description", .bool true),
                  ("images", .bool true),
                  ("variants", .bool true),
                  ("tags", .bool true),
                  ("keyFeatures", .bool true),
                  ("shipping_template", .bool true)]) ∧
    (publishProduct shopId productId).body = (publishProduct "" "").body :=
  ⟨rfl, rfl⟩

/-- C8: `setPublishingSucceeded` sends exactly
`{"external": {"id": externalId, "handle": handle}}`. -/
theorem C8_publishing_succeeded_body
    (shopId productId handle externalId : String) :
    (setPublishingSucceeded shopId productId handle externalId).body =
      some (.obj [("external",
        .obj [("id", .str externalId), ("handle", .str handle)])]) :=
  rfl

/-- C1 fails as stated: the catch block uses JavaScript `||`, so a vendor
message that is present but empty, and a response status that is present
but 0, are both skipped as falsy. Here the vendor body carries
`message: ""` and the response carries status 0, yet the raised error
takes the transport failure's message and status 500. -/
theorem C1_counterexample :
    (normalizeError (.axiosError "timeout of 10000ms exceeded"
        (some ⟨0, some ⟨some 422, some "",
          some [("title", ["required"])]⟩⟩))).message
      = "timeout of 10000ms exceeded" ∧
    "timeout of 10000ms exceeded" ≠ "" ∧
    (normalizeError (.axiosError "timeout of 10000ms exceeded"
        (some ⟨0, some ⟨some 422, some "",
          some [("title", ["required"])]⟩⟩))).statusCode = 500 ∧
    (500 : Nat) ≠ 0 := by
  refine ⟨rfl, by decide, rfl, by decide⟩

/-- C1 (amended): on an axios failure carrying a response with a decodable
vendor body, the raised `PrintifyError` has the vendor message when
present and non-empty (otherwise the transport failure's message), the
response status when nonzero (otherwise 500), and the vendor field-error
mapping as details. -/
theorem C1_amended_error_normalization (msg : String) (status : Nat)
    (body : ApiErrorResponse) :
    (∀ m, body.message = some m → m ≠ "" →
      (normalizeError
        (.axiosError msg (some ⟨status, some body⟩))).message = m) ∧
    (body.message = none →
      (normalizeError
        (.axiosError msg (some ⟨status, some body⟩))).message = msg) ∧
    (body.message = some "" →
      (normalizeError
        (.axiosError msg (some ⟨status, some body⟩))).message = msg) ∧
    (status ≠ 0 →
      (normalizeError
        (.axiosError msg (some ⟨status, some body⟩))).statusCode = status) ∧
    (status = 0 →
      (normalizeError
        (.axiosError msg (some ⟨status, some body⟩))).statusCode = 500) ∧
    (normalizeError
        (.axiosError msg (some ⟨status, some body⟩))).details = body.errors := by
  refine ⟨?_, ?_, ?_, ?_, ?_, rfl⟩
  · intro m hm hne
    simp [normalizeError, jsOrStr, hm, hne]
  · intro hm
    simp [normalizeError, jsOrStr, hm]
  · intro hm
    simp [normalizeError, jsOrStr, hm]
  · intro hs
    simp [normalizeError, jsOrNat, hs]
  · intro hs
    simp [normalizeError, jsOrNat, hs]

/-- Witness for C1 at the spec's concrete example: body
`{"message": "Invalid field", "code": 422, "errors": {"title":
["required"]}}` on a status-422 failure yields message "Invalid field",
status 422, details `{"title": ["required"]}`. -/
theorem C1_amended_witness :
    (normalizeError (.axiosError "Request failed with status code 422"
        (some ⟨422, some ⟨some 422, some "Invalid field",
          some [("title", ["required"])]⟩⟩))).message = "Invalid field" ∧
    (normalizeError (.axiosError "Request failed with status code 422"
        (some ⟨422, some ⟨some 422, some "Invalid field",
          some [("title", ["required"])]⟩⟩))).statusCode = 422 ∧
    (normalizeError (.axiosError "Request failed with status code 422"
        (some ⟨422, some ⟨some 422, some "Invalid field",
          some [("title", ["required"])]⟩⟩))).details
      = some [("title", ["required"])] :=
  ⟨(C1_amended_error_normalization "Request failed with status code 422" 422
      ⟨some 422, some "Invalid field", some [("title", ["required"])]⟩).1
      "Invalid field" rfl (by decide),
   (C1_amended_error_normalization "Request failed with status code 422" 422
      ⟨some 422, some "Invalid field", some [("title", ["required"])]⟩).2.2.2.1
      (by decide),
   (C1_amended_error_normalization "Request failed with status code 422" 422
      ⟨some 422, some "Invalid field", some [("title", ["required"])]⟩).2.2.2.2.2⟩

/-- C2 fails as stated: a pure transport fault such as connection refused
IS an axios error (with no response attached), so the catch block takes
the axios branch and the raised error carries the fault's own message, not
"Unknown error occurred". -/
theorem C2_counterexample :
    (normalizeError (.axiosError "connect ECONNREFUSED 127.0.0.1:443"
        none)).message = "connect ECONNREFUSED 127.0.0.1:443" ∧
    "connect ECONNREFUSED 127.0.0.1:443" ≠ "Unknown error occurred" ∧
    (normalizeError (.axiosError "connect ECONNREFUSED 127.0.0.1:443"
        none)).statusCode = 500 :=
  ⟨rfl, by decide, rfl⟩

/-- C2 (amended): an axios transport fault with no response raises a
`PrintifyError` with the fault's own message and status 500; the fixed
message "Unknown error occurred" with status 500 is raised exactly when
the thrown value is not an axios error. -/
theorem C2_amended_no_response (msg : String) :
    normalizeError (.axiosError msg none) =
      { message := msg, statusCode := 500, details := none } ∧
    normalizeError .other =
      { message := "Unknown error occurred", statusCode := 500,
        details := none } :=
  ⟨rfl, rfl⟩

/-- C5 fails as stated: `createOrder` posts the caller's full `Order`
payload verbatim, whose field set (`id`, `metadata`, `status`,
`created_at`, `updated_at`, and no `external_id`/`label`/express/economy
flags) differs from the body the three by-X variants assemble even with
the line items erased, on logically equivalent concrete inputs. -/
theorem C5_counterexample :
    requestBodyMinus (createOrder "shop-1" sampleOrder) "line_items" ≠
    requestBodyMinus (createOrderWithProductId "shop-1" "ext-1" "Label-1"
      [⟨"prod-1", 1, 2⟩] 1 sampleAddress none none none) "line_items" :=
  fun h => absurd (congrArg (Option.map Json.keys) h) (by decide)

/-- C5 (amended): the three operations `createOrderWithProductId`,
`createOrderWithSKU` and `createFlexibleOrder`, given equivalent logical
inputs, produce wire-identical request bodies (same method, same path
`/shops/{shop}/orders.json`, same fields and values) except for the
line-item shape supplied; `createOrder` instead posts the caller's full
`Order` payload verbatim, which has a different field set. -/
theorem C5_amended_variants_wire_identical (shopId externalId label : String)
    (pidItems : List ProductIdLineItem) (skuItems : List SkuLineItem)
    (flexItems : List FlexibleLineItem) (shippingMethod : Int)
    (address : Address) (e1 e2 e3 : Option Bool) :
    requestBodyMinus (createOrderWithProductId shopId externalId label
        pidItems shippingMethod address e1 e2 e3) "line_items" =
      requestBodyMinus (createOrderWithSKU shopId externalId label
        skuItems shippingMethod address e1 e2 e3) "line_items" ∧
    requestBodyMinus (createOrderWithSKU shopId externalId label
        skuItems shippingMethod address e1 e2 e3) "line_items" =
      requestBodyMinus (createFlexibleOrder shopId externalId label
        flexItems shippingMethod address e1 e2 e3) "line_items" ∧
    (createOrderWithProductId shopId externalId label pidItems
        shippingMethod address e1 e2 e3).path =
      (createOrderWithSKU shopId externalId label skuItems
        shippingMethod address e1 e2 e3).path ∧
    (createOrderWithSKU shopId externalId label skuItems
        shippingMethod address e1 e2 e3).path =
      (createFlexibleOrder shopId externalId label flexItems
        shippingMethod address e1 e2 e3).path ∧
    (createOrderWithProductId shopId externalId label pidItems
        shippingMethod address e1 e2 e3).method = .POST ∧
    (createOrderWithSKU shopId externalId label skuItems
        shippingMethod address e1 e2 e3).method = .POST ∧
    (createFlexibleOrder shopId externalId label flexItems
        shippingMethod address e1 e2 e3).method = .POST :=
  ⟨rfl, rfl, rfl, rfl, rfl, rfl, rfl⟩

/-- C9 fails as stated: the `ON_HOLD` member of the `OrderStatus` enum
carries the string "onhold", not the claimed "on-hold". -/
theorem C9_counterexample :
    OrderStatus.value .ON_HOLD = "onhold" ∧ "onhold" ≠ "on-hold" := by
  refine ⟨rfl, by decide⟩

/-- C9 (amended): `OrderStatus` is a closed enumeration of exactly five
members carrying the strings "pending", "onhold", "canceled", "failed"
and "completed" (the on-hold member carries "onhold", without a hyphen);
distinct members carry distinct strings. -/
theorem C9_amended_closed_enum :
    (∀ s : OrderStatus, s = .PENDING ∨ s = .ON_HOLD ∨ s = .CANCELED ∨
      s = .FAILED ∨ s = .COMPLETED) ∧
    OrderStatus.value .PENDING = "pending" ∧
    OrderStatus.value .ON_HOLD = "onhold" ∧
    OrderStatus.value .CANCELED = "canceled" ∧
    OrderStatus.value .FAILED = "failed" ∧
    OrderStatus.value .COMPLETED = "completed" ∧
    Function.Injective OrderStatus.value := by
  refine ⟨?_, rfl, rfl, rfl, rfl, rfl, ?_⟩
  · intro s
    cases s
    · exact Or.inl rfl
    · exact Or.inr (Or.inl rfl)
    · exact Or.inr (Or.inr (Or.inl rfl))
    · exact Or.inr (Or.inr (Or.inr (Or.inl rfl)))
    · exact Or.inr (Or.inr (Or.inr (Or.inr rfl)))
  · intro a b h
    cases a <;> cases b <;> first | rfl | exact absurd h (by decide)

/-- Witness for C9 (amended) at a concrete status. -/
theorem C9_amended_witness :
    OrderStatus.FAILED = .PENDING ∨ OrderStatus.FAILED = .ON_HOLD ∨
    OrderStatus.FAILED = .CANCELED ∨ OrderStatus.FAILED = .FAILED ∨
    OrderStatus.FAILED = .COMPLETED :=
  C9_amended_closed_enum.1 .FAILED

/-- C10: client construction is a total assembly with no validation —
for every configuration, the empty access token included, the transport
handle carries `Authorization: Bearer <apiKey>`,
`Content-Type: application/json`, the configured base URL, a fixed
10000 ms timeout, and a `User-Agent` equal to the supplied string when it
is non-empty and "PrintifyApiClient/1.0" when it is absent or empty. -/
theorem C10_constructor_total (config : PressmaticConfig) :
    (mkPressmaticClient config).authorization = "Bearer " ++ config.apiKey ∧
    (mkPressmaticClient config).contentType = "application/json" ∧
    (mkPressmaticClient config).baseURL = config.endpoint ∧
    (mkPressmaticClient config).timeout = 10000 ∧
    (∀ s, config.userAgent = some s → s ≠ "" →
      (mkPressmaticClient config).userAgent = s) ∧
    (config.userAgent = none ∨ config.userAgent = some "" →
      (mkPressmaticClient config).userAgent = "PrintifyApiClient/1.0") := by
  refine ⟨rfl, rfl, rfl, rfl, ?_, ?_⟩
  · intro s hs hne
    simp [mkPressmaticClient, jsOrStr, hs, hne]
  · rintro (h | h) <;> simp [mkPressmaticClient, jsOrStr, h]

/-- Witness for C10 at a configuration with an empty access token and no
user agent: construction still succeeds and yields the default headers. -/
theorem C10_constructor_total_witness :
    (mkPressmaticClient ⟨"", "https://api.printify.com/v1", none⟩).userAgent
      = "PrintifyApiClient/1.0" ∧
    (mkPressmaticClient ⟨"", "https://api.printify.com/v1", none⟩).timeout
      = 10000 :=
  ⟨(C10_constructor_total
      ⟨"", "https://api.printify.com/v1", none⟩).2.2.2.2.2 (Or.inl rfl),
   (C10_constructor_total
      ⟨"", "https://api.printify.com/v1", none⟩).2.2.2.1⟩

end Pressmatic
